import Mathlib

set_option autoImplicit false

/-!
Verification of the CardanoHarvestFlow issuance protocol and its batch payout
tool, as a shallow embedding of the repository's TypeScript sources:

* the oracle datum and the off-chain transaction builders of
  `MeshPlutusNFTContract` (`mintPlutusNFT`, `mintBulkPlutusNFT`,
  `setNFTMinting`, `setNFTTrading`);
* the bulk-mint API route (`src/app/api/cardano/mint-bulk/route.ts`);
* the airdrop/refund batch script (`src/scripts/airdrop-refund.ts`);
* the client mint hook's confirmation polling
  (`src/hooks/useCardanoAPIMint.ts`).

All machine numbers are modelled as `Nat`/`Int`; fallible code returns
`Except`; stateful loops are folds over explicit inputs.
-/

namespace HarvestFlow

/-- The oracle datum carried inline on the oracle UTxO
(`OracleDatum` in `src/lib/nft-contracts/type.ts`, fields in the order
`count, lovelace_price, fee_address, nft_mint_allowed, nft_trade_allowed,
expected_apr_numerator, expected_apr_denominator, maturation_time, max_mints`).
The fee address object and its serialized bech32 form are collapsed into one
abstract `String`. -/
structure OracleDatum where
  count : Nat
  lovelacePrice : Nat
  feeCollector : String
  nftMintAllowed : Bool
  nftTradeAllowed : Bool
  aprNumerator : Int
  aprDenominator : Int
  maturationTime : Nat
  maxMints : Nat
deriving Repr, DecidableEq

/-- Errors thrown by the off-chain builders in `part_006`:
`capacityExceeded` is "Max mints reached, mint transaction would have failed"
(single) and "Bulk mint would exceed max mints. ..." (bulk);
`disabled` is "NFT minting is not allowed";
`invalidQuantity` is "Quantity must be greater than 0". -/
inductive MintError where
  | capacityExceeded
  | disabled
  | invalidQuantity
deriving Repr, DecidableEq

/-- Base token name of the unit with sequence index `i`:
the template literal `collectionName (index)` computed identically by
`mintPlutusNFT` (as `baseTokenName`) and `mintBulkPlutusNFT` (as `tokenName`). -/
def tokenName (collectionName : String) (i : Nat) : String :=
  collectionName ++ " (" ++ toString i ++ ")"

/-- The observable content of one built issuance transaction: the successor
oracle datum placed at the oracle address, the base token names of the units
minted, and the lovelace paid to the fee collector. -/
structure MintTx where
  newDatum : OracleDatum
  mintedNames : List String
  paymentToFeeCollector : Nat
deriving Repr, DecidableEq

/-- `mintPlutusNFT` of `MeshPlutusNFTContract` (part_006), on its default
path (`mint100TokenForIndex` absent), restricted to the oracle-state logic:
it checks `nftIndex + 1 > maxMints` and otherwise builds one transaction with
successor count `nftIndex + 1`, one unit named from the current index, and a
payment of `lovelacePrice` to the fee collector.  Note: the source performs
no `nftMintAllowed` check on this path. -/
def mintPlutusNFT (collectionName : String) (st : OracleDatum) :
    Except MintError MintTx :=
  if st.count + 1 > st.maxMints then
    .error .capacityExceeded
  else
    .ok { newDatum := { st with count := st.count + 1 }
          mintedNames := [tokenName collectionName st.count]
          paymentToFeeCollector := st.lovelacePrice }

/-- `mintBulkPlutusNFT` of `MeshPlutusNFTContract` (part_006), restricted to
the oracle-state logic, with the source's guard order: first
`quantity <= 0`, then `nftIndex + quantity > maxMints`, then the
`nftMintAllowed` flag; on success one transaction with successor count
`nftIndex + quantity`, units named from indices `nftIndex ..
nftIndex + quantity - 1`, and one aggregate payment `lovelacePrice * quantity`. -/
def mintBulkPlutusNFT (collectionName : String) (quantity : Nat)
    (st : OracleDatum) : Except MintError MintTx :=
  if quantity = 0 then
    .error .invalidQuantity
  else if st.count + quantity > st.maxMints then
    .error .capacityExceeded
  else if ¬ st.nftMintAllowed then
    .error .disabled
  else
    .ok { newDatum := { st with count := st.count + quantity }
          mintedNames :=
            (List.range quantity).map (fun i => tokenName collectionName (st.count + i))
          paymentToFeeCollector := st.lovelacePrice * quantity }

/-- The observable content of one built toggle transaction: the successor
oracle datum, the required signer hash (the source adds
`requiredSignerHash(deserializeAddress(feeCollectorAddress).pubKeyHash)`),
and the lovelace paid to the fee collector (the toggle builders add no fee
output). -/
structure ToggleTx where
  newDatum : OracleDatum
  requiredSigner : String
  paymentToFeeCollector : Nat
deriving Repr, DecidableEq

/-- `setNFTMinting` of `MeshPlutusNFTContract` (part_006): rebuilds the datum
with `nft_mint_allowed := bool(onOrOff)` and every other field copied from the
current oracle data, requires the fee collector's key as signer, and moves no
payment. -/
def setNFTMinting (onOrOff : Bool) (st : OracleDatum) : ToggleTx :=
  { newDatum := { st with nftMintAllowed := onOrOff }
    requiredSigner := st.feeCollector
    paymentToFeeCollector := 0 }

/-- `setNFTTrading` of `MeshPlutusNFTContract` (part_006): rebuilds the datum
with `nft_trade_allowed := bool(onOrOff)` and every other field copied, fee
collector signer required, no payment. -/
def setNFTTrading (onOrOff : Bool) (st : OracleDatum) : ToggleTx :=
  { newDatum := { st with nftTradeAllowed := onOrOff }
    requiredSigner := st.feeCollector
    paymentToFeeCollector := 0 }

/-- A sample oracle state used for concrete evaluations. -/
def sampleState (count maxMints : Nat) (mintAllowed : Bool) : OracleDatum :=
  { count := count
    lovelacePrice := 5000000
    feeCollector := "addr_test1_fee_collector"
    nftMintAllowed := mintAllowed
    nftTradeAllowed := true
    aprNumerator := 8
    aprDenominator := 100
    maturationTime := 1767225600000
    maxMints := maxMints }

example :
    mintPlutusNFT "HF" (sampleState 99 100 true) =
      .ok { newDatum := sampleState 100 100 true
            mintedNames := ["HF (99)"]
            paymentToFeeCollector := 5000000 } := rfl

example :
    mintPlutusNFT "HF" (sampleState 100 100 true) = .error .capacityExceeded := rfl

example :
    mintBulkPlutusNFT "HF" 5 (sampleState 97 100 true) = .error .capacityExceeded := rfl

example : (mintPlutusNFT "HF" (sampleState 0 100 false)).isOk = true := rfl

example :
    mintBulkPlutusNFT "HF" 5 (sampleState 0 100 false) = .error .disabled := rfl

example :
    mintBulkPlutusNFT "HF" 5 (sampleState 97 100 false) = .error .capacityExceeded := rfl

/-- `n` sequential single issuances (`mintPlutusNFT` repeated, each building
from the successor datum of the previous one, as `mintManyPlutusNFT` does):
the accumulated final datum, minted base token names in order, and the total
lovelace paid to the fee collector across the `n` transactions. -/
def mintSeq (collectionName : String) :
    Nat → OracleDatum → Except MintError (OracleDatum × List String × Nat)
  | 0, st => .ok (st, [], 0)
  | n + 1, st =>
    match mintPlutusNFT collectionName st with
    | .error e => .error e
    | .ok tx =>
      match mintSeq collectionName n tx.newDatum with
      | .error e => .error e
      | .ok (stFinal, names, paid) =>
        .ok (stFinal, tx.mintedNames ++ names, tx.paymentToFeeCollector + paid)

/-- Outcome of the bulk-mint-prepare POST route: either a 400/500 rejection
carrying only an error message, or the prepared materials (`tokenIds` and
`totalLovelace`) for client-side transaction building. -/
inductive PostResponse where
  | reject (msg : String)
  | materials (tokenIds : List Nat) (totalLovelace : Nat)
deriving Repr, DecidableEq

/-- The quantity ceiling hard-coded in the POST guard
`if (!quantity || quantity < 1 || quantity > 15)` of
`src/app/api/cardano/mint-bulk/route.ts`. -/
def postQuantityCeiling : Nat := 15

/-- `POST` of `src/app/api/cardano/mint-bulk/route.ts`, restricted to its
request-validation and oracle-state logic.  `quantity` is `none` when the
request body omits it (JS `!quantity` also catches `0`, subsumed here by
`q < 1`); `devMintOverride` stands for
`isDev && hasOverride` which forces `mintingAllowed` to `true`. -/
def bulkMintPOST (st : OracleDatum) (devMintOverride : Bool)
    (quantity : Option Int) : PostResponse :=
  match quantity with
  | none => .reject "quantity must be between 1 and 15"
  | some q =>
    if q < 1 ∨ q > 15 then
      .reject "quantity must be between 1 and 15"
    else if (st.count : Int) + q > (st.maxMints : Int) then
      .reject "Bulk mint would exceed max mints"
    else if ¬ (st.nftMintAllowed || devMintOverride) then
      .reject "NFT minting is currently disabled for this project"
    else
      .materials ((List.range q.toNat).map (fun i => st.count + i))
        (st.lovelacePrice * q.toNat)

/-- The `maxBulkQuantity` field of the GET status response of
`src/app/api/cardano/mint-bulk/route.ts`:
`Math.min(50, maxMints - currentIndex)` (computed over JS numbers, hence
over `Int`). -/
def maxBulkQuantity (st : OracleDatum) : Int :=
  min 50 ((st.maxMints : Int) - (st.count : Int))

/-- The `status` discriminant of `APIMintStatus` in
`src/hooks/useCardanoAPIMint.ts`. -/
inductive MintUiStatusKind where
  | idle
  | preparing
  | signing
  | submitting
  | confirming
  | success
  | error
  | warning
deriving Repr, DecidableEq

/-- `APIMintStatus` of `src/hooks/useCardanoAPIMint.ts`. -/
structure APIMintStatus where
  status : MintUiStatusKind
  txHash : Option String := none
  error : Option String := none
  warning : Option String := none
  tokenIds : List Nat := []
deriving Repr, DecidableEq

/-- `waitForOracleUpdate` of `executeSingleMint`
(`src/hooks/useCardanoAPIMint.ts`): one poll iteration per element, where
`some i` is a successful status fetch reporting oracle index `i` and `none`
is a failed or non-ok fetch; returns `true` as soon as a poll reports an
index `>= expectedIndex`, and `false` when the bounded polling window
(`timeoutMs = 120000` at `intervalMs = 4000`, here the finite list) is
exhausted. -/
def waitForOracleUpdate (expectedIndex : Nat) :
    List (Option Nat) → Bool
  | [] => false
  | poll :: rest =>
    match poll with
    | some currentIndexCandidate =>
      if expectedIndex ≤ currentIndexCandidate then true
      else waitForOracleUpdate expectedIndex rest
    | none => waitForOracleUpdate expectedIndex rest

/-- The soft warning text set by `executeSingleMint` when oracle confirmation
times out. -/
def oracleDelayWarning : String :=
  "Transaction submitted successfully but oracle confirmation is delayed. Your NFT should appear in your wallet soon."

/-- The `.then` continuation of the background
`waitForOracleUpdate(tokenId + 1)` call in `executeSingleMint`: on timeout
(`oracleUpdated = false`) it rewrites the current status to `warning` with
`oracleDelayWarning` — but only when the status is still `confirming` or
`success` — and otherwise leaves the status untouched.  It never produces an
error status. -/
def onOracleUpdateResult (oracleUpdated : Bool)
    (prevStatus : APIMintStatus) : APIMintStatus :=
  if oracleUpdated then prevStatus
  else if prevStatus.status = .confirming ∨ prevStatus.status = .success then
    { prevStatus with status := .warning, warning := some oracleDelayWarning }
  else prevStatus

/-- `HolderInfo` of `src/scripts/airdrop-refund.ts` (the `tokenIds` list is
not consulted by the payout path and is omitted). -/
structure HolderInfo where
  address : String
  quantity : Nat
deriving Repr, DecidableEq

/-- The `status` field of a `TransactionLog` entry
(`'success' | 'failed'`). -/
inductive LogStatus where
  | success
  | failed
deriving Repr, DecidableEq

/-- `TransactionLog` of `src/scripts/airdrop-refund.ts`: one appended entry
per attempted batch. -/
structure TransactionLog where
  txHash : Option String
  addresses : List String
  amounts : List Nat
  status : LogStatus
  error : Option String
deriving Repr, DecidableEq

/-- `loadPreviousLog` of `src/scripts/airdrop-refund.ts`: the set (here a
list, queried by membership) of every address of every entry with
`status === 'success' && txHash`. -/
def loadPreviousLog (transactions : List TransactionLog) : List String :=
  transactions.foldl
    (fun successfulAddresses tx =>
      if tx.status = LogStatus.success ∧ tx.txHash.isSome then
        successfulAddresses ++ tx.addresses
      else successfulAddresses)
    []

/-- Result shape of `sendBatch`: `{ txHash: string | null; error?: string }`. -/
structure BatchSendResult where
  txHash : Option String
  error : Option String
deriving Repr, DecidableEq

/-- `sendBatch` of `src/scripts/airdrop-refund.ts`, abstracted over the
wallet/provider interaction: `attempt` is the underlying build-sign-submit,
either returning a transaction hash or throwing a message.  The source wraps
everything in `try/catch` and returns `{ txHash: null, error }` instead of
propagating the exception. -/
def sendBatch (attempt : Except String String) : BatchSendResult :=
  match attempt with
  | .ok txHash => { txHash := some txHash, error := none }
  | .error e => { txHash := none, error := some e }

/-- One pending recipient of the airdrop, as assembled in `airdropRefund`:
`amountLovelace = BigInt(holder.quantity) * BigInt(Math.floor(adaPerNft * 1_000_000))`.
The CLI's floating `adaPerNft` enters this model already converted to
`lovelacePerNft = Math.floor(adaPerNft * 1_000_000)`. -/
structure Recipient where
  address : String
  amountLovelace : Nat
  quantity : Nat
deriving Repr, DecidableEq

/-- Builds the `recipients` entry of one pending holder. -/
def toRecipient (lovelacePerNft : Nat) (h : HolderInfo) : Recipient :=
  { address := h.address
    amountLovelace := h.quantity * lovelacePerNft
    quantity := h.quantity }

/-- `holders.filter(h => !successfulAddresses.has(h.address))` of
`airdropRefund`. -/
def pendingHolders (holders : List HolderInfo)
    (successfulAddresses : List String) : List HolderInfo :=
  holders.filter (fun h => decide (h.address ∉ successfulAddresses))

/-- `BATCH_SIZE = 50` of `airdropRefund`. -/
def airdropBatchSize : Nat := 50

/-- Structural worker for `chunked`, with `fuel` bounding the number of loop
iterations (any `fuel ≥ l.length` yields the loop's result, since each
iteration consumes at least one element when `batchSize ≥ 1`). -/
def chunkedGo {α : Type} (batchSize : Nat) : Nat → List α → List (List α)
  | _, [] => []
  | 0, _ :: _ => []
  | fuel + 1, a :: rest =>
    (a :: rest).take batchSize :: chunkedGo batchSize fuel ((a :: rest).drop batchSize)

/-- The batching loop `for (let i = 0; i < recipients.length; i += BATCH_SIZE)
{ const batch = recipients.slice(i, i + BATCH_SIZE); ... }`: consecutive
chunks of at most `batchSize` elements, in order.  The source's batch size is
the constant 50; a zero batch size (on which the JS loop would not advance)
is mapped to the empty partition. -/
def chunked {α : Type} (batchSize : Nat) (l : List α) : List (List α) :=
  if batchSize = 0 then [] else chunkedGo batchSize l.length l

/-- The log entry appended by `airdropRefund` after one batch attempt:
`status` is `'success'` exactly when `sendBatch` returned a hash, and the
error message is recorded otherwise. -/
def batchEntry (batch : List Recipient)
    (attempt : Except String String) : TransactionLog :=
  let result := sendBatch attempt
  { txHash := result.txHash
    addresses := batch.map (fun r => r.address)
    amounts := batch.map (fun r => r.amountLovelace)
    status := if result.txHash.isSome then LogStatus.success else LogStatus.failed
    error := result.error }

/-- The full batch loop of `airdropRefund`: every batch is attempted in
order (a failed batch does not stop the loop), one log entry per batch.
`attempts` supplies, per batch, the outcome of the underlying submission. -/
def runBatches (batches : List (List Recipient))
    (attempts : List (Except String String)) : List TransactionLog :=
  List.zipWith batchEntry batches attempts

/-- The running `summary` of the log file. -/
structure RunSummary where
  successful : Nat
  failed : Nat
  totalSent : Nat
deriving Repr, DecidableEq

/-- The summary counters maintained by the batch loop: per successful batch,
`successfulCount += batch.length` and `totalSent += batchTotal`; per failed
batch, `failedCount += batch.length`. -/
def summarize (transactions : List TransactionLog) : RunSummary :=
  transactions.foldl
    (fun s tx =>
      match tx.status with
      | LogStatus.success =>
        { s with successful := s.successful + tx.addresses.length
                 totalSent := s.totalSent + tx.amounts.sum }
      | LogStatus.failed =>
        { s with failed := s.failed + tx.addresses.length })
    { successful := 0, failed := 0, totalSent := 0 }

/-- `estimatedFeePerTx = BigInt(200_000)` of `airdropRefund`. -/
def estimatedFeePerTx : Nat := 200000

/-- `estimatedBatches = Math.ceil(recipients.length / 50)` of
`airdropRefund`, as Nat ceiling division. -/
def estimatedBatchCountOf (numRecipients : Nat) : Nat :=
  (numRecipients + 49) / 50

/-- Overall outcome of one `airdropRefund` run: `fatal` is a thrown error
(caught at top level and turned into `process.exit(1)`), `earlyReturn` is a
normal return before any batch, `completed` is a finished batch loop with
its persisted log and summary (normal completion, exit code 0, also when
some batches failed). -/
inductive RunOutcome where
  | fatal (msg : String)
  | earlyReturn (msg : String)
  | completed (transactions : List TransactionLog) (summary : RunSummary)
deriving Repr, DecidableEq

/-- The `pendingHolders` value of `airdropRefund`: the enumerated holders
minus the addresses already successful in the resume log. -/
def airdropPending (holders : List HolderInfo)
    (previousLog : List TransactionLog) : List HolderInfo :=
  pendingHolders holders (loadPreviousLog previousLog)

/-- The `recipients` list of `airdropRefund`: one payout per pending
holder. -/
def airdropRecipients (holders : List HolderInfo)
    (previousLog : List TransactionLog) (lovelacePerNft : Nat) :
    List Recipient :=
  (airdropPending holders previousLog).map (toRecipient lovelacePerNft)

/-- The `totalLovelace` accumulator of `airdropRefund`: the sum of all
pending payouts. -/
def airdropTotalLovelace (holders : List HolderInfo)
    (previousLog : List TransactionLog) (lovelacePerNft : Nat) : Nat :=
  ((airdropRecipients holders previousLog lovelacePerNft).map
    (fun r => r.amountLovelace)).sum

/-- The `requiredBalance` of the pre-flight check:
`totalLovelace + estimatedFeePerTx * estimatedBatches`. -/
def airdropRequiredBalance (holders : List HolderInfo)
    (previousLog : List TransactionLog) (lovelacePerNft : Nat) : Nat :=
  airdropTotalLovelace holders previousLog lovelacePerNft +
    estimatedFeePerTx *
      estimatedBatchCountOf
        (airdropRecipients holders previousLog lovelacePerNft).length

/-- `airdropRefund` of `src/scripts/airdrop-refund.ts`, restricted to its
decision logic in source order: load the resume log, enumerate holders,
early-return when nothing is pending, compute payouts, pre-flight check the
wallet balance against `totalLovelace + estimatedFeePerTx * estimatedBatches`
(throwing "Insufficient balance" before any batch), then run every batch.
`attempts` supplies the per-batch submission outcomes. -/
def airdropRun (holders : List HolderInfo)
    (previousLog : List TransactionLog) (lovelacePerNft : Nat)
    (walletBalance : Nat) (attempts : List (Except String String)) :
    RunOutcome :=
  if holders.isEmpty then
    .earlyReturn "No NFT holders found."
  else if (airdropPending holders previousLog).isEmpty then
    .earlyReturn "All addresses have already been processed!"
  else if walletBalance <
      airdropRequiredBalance holders previousLog lovelacePerNft then
    .fatal "Insufficient balance"
  else
    .completed
      (runBatches
        (chunked airdropBatchSize
          (airdropRecipients holders previousLog lovelacePerNft))
        attempts)
      (summarize
        (runBatches
          (chunked airdropBatchSize
            (airdropRecipients holders previousLog lovelacePerNft))
          attempts))

/-- C1, counterexample: the claim "every issuance attempt from a snapshot
with mintingEnabled = false fails with Disabled before building, regardless
of remaining capacity" is false on the code.  At a disabled snapshot with
ample capacity, `mintPlutusNFT` builds its transaction successfully (the
single-mint path has no flag check at all); and at a disabled snapshot whose
capacity is also exhausted, `mintBulkPlutusNFT` fails with CapacityExceeded,
not Disabled, because the capacity check runs first. -/
theorem mint_disabled_claim_counterexample :
    (mintPlutusNFT "HF" (sampleState 0 100 false)).isOk = true ∧
    mintBulkPlutusNFT "HF" 5 (sampleState 97 100 false) =
      .error .capacityExceeded :=
  ⟨rfl, rfl⟩

/-- C1, amended: bulk issuance (`mintBulkPlutusNFT`) from a snapshot with
mintingEnabled = false fails with Disabled before building any transaction,
provided its capacity check — which the source performs first — passes;
single-unit issuance (`mintPlutusNFT`) performs no mintingEnabled check and
builds its transaction whenever capacity remains, flag notwithstanding. -/
theorem disabled_guard_bulk_only (c : String) (st : OracleDatum) (n : Nat)
    (hn : 1 ≤ n) (hflag : st.nftMintAllowed = false) :
    (st.count + n ≤ st.maxMints →
      mintBulkPlutusNFT c n st = .error .disabled) ∧
    (st.count + 1 ≤ st.maxMints → (mintPlutusNFT c st).isOk = true) := by
  constructor
  · intro hcap
    have h0 : ¬ n = 0 := by omega
    have hlt : ¬ st.count + n > st.maxMints := Nat.not_lt.mpr hcap
    simp [mintBulkPlutusNFT, h0, hlt, hflag]
  · intro hcap
    have hlt : ¬ st.count + 1 > st.maxMints := Nat.not_lt.mpr hcap
    simp [mintPlutusNFT, hlt, Except.isOk, Except.toBool]

/-- C1, witness for the amended claim at a concrete disabled snapshot. -/
theorem disabled_guard_bulk_only_witness :
    mintBulkPlutusNFT "HF" 5 (sampleState 0 100 false) = .error .disabled ∧
    (mintPlutusNFT "HF" (sampleState 0 100 false)).isOk = true :=
  ⟨(disabled_guard_bulk_only "HF" (sampleState 0 100 false) 5 (by decide)
      rfl).1 (by decide),
   (disabled_guard_bulk_only "HF" (sampleState 0 100 false) 5 (by decide)
      rfl).2 (by decide)⟩

/-- C2: issuance of `n ≥ 1` units fails with CapacityExceeded exactly when
`index + n > maxSupply`, in which case no transaction (hence no successor
index) is produced; when `index + n ≤ maxSupply` the capacity guard passes
(bulk never reports CapacityExceeded, and a single mint succeeds taking the
index to `index + 1`). -/
theorem capacity_guard_no_partial_issuance (c : String) (st : OracleDatum)
    (n : Nat) (hn : 1 ≤ n) :
    (st.maxMints < st.count + n →
      mintBulkPlutusNFT c n st = .error .capacityExceeded) ∧
    (st.maxMints < st.count + 1 →
      mintPlutusNFT c st = .error .capacityExceeded) ∧
    (st.count + n ≤ st.maxMints →
      mintBulkPlutusNFT c n st ≠ .error .capacityExceeded) ∧
    (st.count + 1 ≤ st.maxMints →
      ∃ tx, mintPlutusNFT c st = .ok tx ∧ tx.newDatum.count = st.count + 1) := by
  refine ⟨?_, ?_, ?_, ?_⟩
  · intro hcap
    have h0 : ¬ n = 0 := by omega
    simp [mintBulkPlutusNFT, h0, hcap]
  · intro hcap
    simp [mintPlutusNFT, hcap]
  · intro hcap
    have h0 : ¬ n = 0 := by omega
    have hlt : ¬ st.count + n > st.maxMints := Nat.not_lt.mpr hcap
    by_cases hflag : st.nftMintAllowed <;>
      simp [mintBulkPlutusNFT, h0, hlt, hflag]
  · intro hcap
    have hlt : ¬ st.count + 1 > st.maxMints := Nat.not_lt.mpr hcap
    refine ⟨{ newDatum := { st with count := st.count + 1 }
              mintedNames := [tokenName c st.count]
              paymentToFeeCollector := st.lovelacePrice }, ?_, rfl⟩
    simp [mintPlutusNFT, hlt]

/-- C2, witness: at `maxSupply = 100`, a single mint at index 99 succeeds
taking the index to 100, a further single mint at index 100 fails with
CapacityExceeded, and a bulk mint of 5 at index 97 fails with
CapacityExceeded. -/
theorem capacity_guard_no_partial_issuance_witness :
    mintPlutusNFT "HF" (sampleState 100 100 true) = .error .capacityExceeded ∧
    mintBulkPlutusNFT "HF" 5 (sampleState 97 100 true) =
      .error .capacityExceeded ∧
    (∃ tx, mintPlutusNFT "HF" (sampleState 99 100 true) = .ok tx ∧
      tx.newDatum.count = 100) :=
  ⟨(capacity_guard_no_partial_issuance "HF" (sampleState 100 100 true) 1
      (by decide)).2.1 (by decide),
   (capacity_guard_no_partial_issuance "HF" (sampleState 97 100 true) 5
      (by decide)).1 (by decide),
   (capacity_guard_no_partial_issuance "HF" (sampleState 99 100 true) 1
      (by decide)).2.2.2 (by decide)⟩

/-- When capacity allows `n` further units, `n` sequential single issuances
succeed, advancing the index by exactly `n`, minting the names of indices
`count .. count + n - 1` in order, and paying `lovelacePrice` per step. -/
lemma mintSeq_ok (c : String) (n : Nat) :
    ∀ (st : OracleDatum), st.count + n ≤ st.maxMints →
      mintSeq c n st =
        .ok ({ st with count := st.count + n },
          (List.range n).map (fun i => tokenName c (st.count + i)),
          st.lovelacePrice * n) := by
  induction n with
  | zero =>
    intro st _
    simp [mintSeq]
  | succ n ih =>
    intro st hcap
    have h1 : ¬ st.count + 1 > st.maxMints := by omega
    have hsingle : mintPlutusNFT c st =
        .ok { newDatum := { st with count := st.count + 1 }
              mintedNames := [tokenName c st.count]
              paymentToFeeCollector := st.lovelacePrice } := by
      simp [mintPlutusNFT, h1]
    have hrec := ih { st with count := st.count + 1 }
      (by show st.count + 1 + n ≤ st.maxMints; omega)
    simp only [mintSeq, hsingle, hrec, Except.ok.injEq, Prod.mk.injEq]
    refine ⟨?_, ?_, ?_⟩
    · simp only [OracleDatum.mk.injEq, and_true, true_and]
      omega
    · rw [List.range_succ_eq_map]
      simp only [List.map_cons, List.map_map, Nat.add_zero,
        List.singleton_append, List.cons.injEq, true_and]
      apply List.map_congr_left
      intro i _
      simp only [Function.comp_apply]
      congr 1
      omega
    · ring

/-- C3: whenever the bulk path builds a transaction, its effect — final
index `i + n`, names of the units of indices `i .. i + n - 1`, and one
aggregate fee payment `unitPrice * n` — coincides with the accumulated
effect of `n` sequential single issuances from the same snapshot, which also
succeed.  The bulk path is a single transaction value, so it issues all `n`
units or (on the error branch) produces nothing. -/
theorem bulk_mint_refines_sequential (c : String) (st : OracleDatum)
    (n : Nat) (tx : MintTx) (hbulk : mintBulkPlutusNFT c n st = .ok tx) :
    tx.newDatum = { st with count := st.count + n } ∧
    tx.mintedNames = (List.range n).map (fun i => tokenName c (st.count + i)) ∧
    tx.paymentToFeeCollector = st.lovelacePrice * n ∧
    mintSeq c n st =
      .ok (tx.newDatum, tx.mintedNames, tx.paymentToFeeCollector) := by
  unfold mintBulkPlutusNFT at hbulk
  by_cases h0 : n = 0
  · rw [if_pos h0] at hbulk
    cases hbulk
  · by_cases hcap : st.count + n > st.maxMints
    · rw [if_neg h0, if_pos hcap] at hbulk
      cases hbulk
    · by_cases hflag : st.nftMintAllowed
      · rw [if_neg h0, if_neg hcap, if_neg (by simp [hflag])] at hbulk
        rw [Except.ok.injEq] at hbulk
        subst hbulk
        refine ⟨rfl, rfl, rfl, ?_⟩
        exact mintSeq_ok c n st (by omega)
      · rw [if_neg h0, if_neg hcap, if_pos (by simp [hflag])] at hbulk
        cases hbulk

/-- C3, witness: a bulk mint of 3 from index 0 and three sequential single
mints agree on the final index 3, the names HF (0), HF (1), HF (2), and the
total payment of 15000000 lovelace. -/
theorem bulk_mint_refines_sequential_witness :
    mintSeq "HF" 3 (sampleState 0 100 true) =
      .ok (sampleState 3 100 true, ["HF (0)", "HF (1)", "HF (2)"],
        15000000) := by
  have h := bulk_mint_refines_sequential "HF" (sampleState 0 100 true) 3
    { newDatum := sampleState 3 100 true
      mintedNames := ["HF (0)", "HF (1)", "HF (2)"]
      paymentToFeeCollector := 15000000 } rfl
  exact h.2.2.2

/-- C5: each toggle builder sets exactly its one flag to the requested
value, requires a signature matching the fee collector, moves no payment,
and copies every other oracle field verbatim into the successor record. -/
theorem toggle_frame_conditions (onOrOff : Bool) (st : OracleDatum) :
    (setNFTMinting onOrOff st).newDatum.nftMintAllowed = onOrOff ∧
    (setNFTMinting onOrOff st).newDatum.count = st.count ∧
    (setNFTMinting onOrOff st).newDatum.lovelacePrice = st.lovelacePrice ∧
    (setNFTMinting onOrOff st).newDatum.feeCollector = st.feeCollector ∧
    (setNFTMinting onOrOff st).newDatum.nftTradeAllowed = st.nftTradeAllowed ∧
    (setNFTMinting onOrOff st).newDatum.aprNumerator = st.aprNumerator ∧
    (setNFTMinting onOrOff st).newDatum.aprDenominator = st.aprDenominator ∧
    (setNFTMinting onOrOff st).newDatum.maturationTime = st.maturationTime ∧
    (setNFTMinting onOrOff st).newDatum.maxMints = st.maxMints ∧
    (setNFTMinting onOrOff st).requiredSigner = st.feeCollector ∧
    (setNFTMinting onOrOff st).paymentToFeeCollector = 0 ∧
    (setNFTTrading onOrOff st).newDatum.nftTradeAllowed = onOrOff ∧
    (setNFTTrading onOrOff st).newDatum.count = st.count ∧
    (setNFTTrading onOrOff st).newDatum.lovelacePrice = st.lovelacePrice ∧
    (setNFTTrading onOrOff st).newDatum.feeCollector = st.feeCollector ∧
    (setNFTTrading onOrOff st).newDatum.nftMintAllowed = st.nftMintAllowed ∧
    (setNFTTrading onOrOff st).newDatum.aprNumerator = st.aprNumerator ∧
    (setNFTTrading onOrOff st).newDatum.aprDenominator = st.aprDenominator ∧
    (setNFTTrading onOrOff st).newDatum.maturationTime = st.maturationTime ∧
    (setNFTTrading onOrOff st).newDatum.maxMints = st.maxMints ∧
    (setNFTTrading onOrOff st).requiredSigner = st.feeCollector ∧
    (setNFTTrading onOrOff st).paymentToFeeCollector = 0 :=
  ⟨rfl, rfl, rfl, rfl, rfl, rfl, rfl, rfl, rfl, rfl, rfl,
   rfl, rfl, rfl, rfl, rfl, rfl, rfl, rfl, rfl, rfl, rfl⟩

/-- C6, counterexample: the claim that the ceiling reported by the status
query agrees with the ceiling enforced by the prepare operation is false.
With `index = 0` and `maxSupply = 100`, the GET status reports
`maxBulkQuantity = 50`, yet the POST handler rejects a request of quantity
20 — which is within the reported ceiling — because its guard is hard-coded
to 15. -/
theorem bulk_ceiling_mismatch_counterexample :
    maxBulkQuantity (sampleState 0 100 true) = 50 ∧
    bulkMintPOST (sampleState 0 100 true) false (some 20) =
      .reject "quantity must be between 1 and 15" := by
  exact ⟨by decide, by decide⟩

/-- C6, amended: the POST handler validates the quantity before building
anything — a missing quantity, a quantity below 1 or a quantity above the
hard-coded ceiling 15 is rejected with an error and no transaction materials
are produced; the status query reports
`maxBulkQuantity = min(50, maxSupply - index)`, which is not in general the
ceiling the POST handler enforces. -/
theorem bulk_post_quantity_validation (st : OracleDatum) (dev : Bool)
    (q : Int) (hq : q < 1 ∨ q > 15) :
    bulkMintPOST st dev none = .reject "quantity must be between 1 and 15" ∧
    bulkMintPOST st dev (some q) =
      .reject "quantity must be between 1 and 15" ∧
    maxBulkQuantity st = min 50 ((st.maxMints : Int) - (st.count : Int)) := by
  refine ⟨rfl, ?_, rfl⟩
  simp only [bulkMintPOST]
  rw [if_pos hq]

/-- C6, witness for the amended claim: a missing quantity and the
over-ceiling quantity 20 are both rejected at a concrete oracle state. -/
theorem bulk_post_quantity_validation_witness :
    bulkMintPOST (sampleState 0 100 true) false none =
      .reject "quantity must be between 1 and 15" ∧
    bulkMintPOST (sampleState 0 100 true) false (some 20) =
      .reject "quantity must be between 1 and 15" :=
  ⟨(bulk_post_quantity_validation (sampleState 0 100 true) false 20
      (Or.inr (by decide))).1,
   (bulk_post_quantity_validation (sampleState 0 100 true) false 20
      (Or.inr (by decide))).2.1⟩

/-- C9: when confirmation polling for a submitted mint exhausts its bounded
window without observing the expected oracle index, the client status is
rewritten to a non-blocking warning carrying `oracleDelayWarning`, the
already-obtained transaction hash is kept, and the handler never turns any
status into a hard `error`. -/
theorem settlement_timeout_soft_warning (prevStatus : APIMintStatus)
    (expectedIndex : Nat) (polls : List (Option Nat))
    (hprev : prevStatus.status = .confirming ∨ prevStatus.status = .success)
    (htimeout : waitForOracleUpdate expectedIndex polls = false) :
    onOracleUpdateResult (waitForOracleUpdate expectedIndex polls)
        prevStatus =
      { prevStatus with
        status := .warning
        warning := some oracleDelayWarning } ∧
    (onOracleUpdateResult (waitForOracleUpdate expectedIndex polls)
        prevStatus).txHash = prevStatus.txHash ∧
    ∀ (b : Bool),
      (onOracleUpdateResult b prevStatus).status ≠
        MintUiStatusKind.error := by
  have hres : onOracleUpdateResult false prevStatus =
      { prevStatus with
        status := .warning
        warning := some oracleDelayWarning } := by
    unfold onOracleUpdateResult
    rw [if_neg (by simp), if_pos hprev]
  rw [htimeout]
  refine ⟨hres, by rw [hres], ?_⟩
  intro b
  cases b
  · rw [hres]
    simp
  · unfold onOracleUpdateResult
    rw [if_pos rfl]
    rcases hprev with h | h <;> rw [h] <;> simp

/-- C9, witness: a polling trace that never reaches the expected index turns
a confirming status with hash "abc123" into the delayed-confirmation warning
with the same hash, and no status becomes an error. -/
theorem settlement_timeout_soft_warning_witness :
    onOracleUpdateResult (waitForOracleUpdate 5 [none, some 0, some 4])
        { status := .confirming, txHash := some "abc123" } =
      { status := .warning
        txHash := some "abc123"
        warning := some oracleDelayWarning } ∧
    (onOracleUpdateResult (waitForOracleUpdate 5 [none, some 0, some 4])
        { status := .confirming, txHash := some "abc123" }).txHash =
      some "abc123" ∧
    ∀ (b : Bool),
      (onOracleUpdateResult b
          { status := .confirming, txHash := some "abc123" }).status ≠
        MintUiStatusKind.error :=
  settlement_timeout_soft_warning
    { status := .confirming, txHash := some "abc123" } 5
    [none, some 0, some 4] (Or.inl rfl) rfl

/-- Concrete recipients used in witnesses. -/
def sampleRecipientA : Recipient :=
  { address := "A", amountLovelace := 10000000, quantity := 1 }

/-- A second concrete recipient used in witnesses. -/
def sampleRecipientB : Recipient :=
  { address := "B", amountLovelace := 20000000, quantity := 2 }

/-- Characterization of membership in the address set accumulated by the
`loadPreviousLog` fold, for an arbitrary starting accumulator. -/
lemma mem_loadPreviousLog_aux (a : String) :
    ∀ (txs : List TransactionLog) (acc : List String),
      (a ∈ txs.foldl
        (fun successfulAddresses tx =>
          if tx.status = LogStatus.success ∧ tx.txHash.isSome then
            successfulAddresses ++ tx.addresses
          else successfulAddresses) acc ↔
      a ∈ acc ∨ ∃ tx ∈ txs,
        (tx.status = LogStatus.success ∧ tx.txHash.isSome) ∧
          a ∈ tx.addresses) := by
  intro txs
  induction txs with
  | nil =>
    intro acc
    simp
  | cons t ts ih =>
    intro acc
    rw [List.foldl_cons, ih]
    by_cases hc : t.status = LogStatus.success ∧ t.txHash.isSome
    · rw [if_pos hc]
      simp only [List.mem_append, List.mem_cons]
      constructor
      · rintro ((ha | ha) | ⟨tx, htx, hcond, ha⟩)
        · exact Or.inl ha
        · exact Or.inr ⟨t, Or.inl rfl, hc, ha⟩
        · exact Or.inr ⟨tx, Or.inr htx, hcond, ha⟩
      · rintro (ha | ⟨tx, (rfl | htx), hcond, ha⟩)
        · exact Or.inl (Or.inl ha)
        · exact Or.inl (Or.inr ha)
        · exact Or.inr ⟨tx, htx, hcond, ha⟩
    · rw [if_neg hc]
      simp only [List.mem_cons]
      constructor
      · rintro (ha | ⟨tx, htx, hcond, ha⟩)
        · exact Or.inl ha
        · exact Or.inr ⟨tx, Or.inr htx, hcond, ha⟩
      · rintro (ha | ⟨tx, (rfl | htx), hcond, ha⟩)
        · exact Or.inl ha
        · exact absurd hcond hc
        · exact Or.inr ⟨tx, htx, hcond, ha⟩

/-- Any address of a success entry with a recorded hash lands in the
successful-address set of `loadPreviousLog`. -/
lemma mem_loadPreviousLog (txs : List TransactionLog)
    (tx : TransactionLog) (a : String) (htx : tx ∈ txs)
    (hst : tx.status = LogStatus.success) (hh : tx.txHash.isSome)
    (ha : a ∈ tx.addresses) : a ∈ loadPreviousLog txs := by
  unfold loadPreviousLog
  rw [mem_loadPreviousLog_aux]
  exact Or.inr ⟨tx, htx, ⟨hst, hh⟩, ha⟩

/-- Entries of the batch loop marked success always carry a transaction
hash, because `batchEntry` derives the status from the presence of the
hash. -/
lemma runBatches_success_has_hash :
    ∀ (batches : List (List Recipient))
      (attempts : List (Except String String)) (entry : TransactionLog),
      entry ∈ runBatches batches attempts →
      entry.status = LogStatus.success → entry.txHash.isSome = true := by
  intro batches
  induction batches with
  | nil =>
    intro attempts entry hmem
    simp [runBatches] at hmem
  | cons b bs ih =>
    intro attempts entry hmem hst
    cases attempts with
    | nil => simp [runBatches] at hmem
    | cons att atts =>
      rw [runBatches, List.zipWith_cons_cons] at hmem
      rcases List.mem_cons.mp hmem with heq | hmem2
      · subst heq
        cases att with
        | ok txh => simp [batchEntry, sendBatch]
        | error e => simp [batchEntry, sendBatch] at hst
      · exact ih atts entry hmem2 hst

/-- C4: resuming over a log produced by the batch loop never pays a
success-marked address again — every holder of the pending set of the
resumed run has an address different from every address of every success
entry of that log, even though the full holder set is re-enumerated. -/
theorem resume_excludes_successful_addresses
    (batches : List (List Recipient))
    (attempts : List (Except String String)) (holders : List HolderInfo)
    (entry : TransactionLog) (a : String)
    (hentry : entry ∈ runBatches batches attempts)
    (hsuccess : entry.status = LogStatus.success)
    (haddr : a ∈ entry.addresses) :
    ∀ h ∈ pendingHolders holders
        (loadPreviousLog (runBatches batches attempts)),
      h.address ≠ a := by
  intro h hh heq
  have hhash :=
    runBatches_success_has_hash batches attempts entry hentry hsuccess
  have hmem : a ∈ loadPreviousLog (runBatches batches attempts) :=
    mem_loadPreviousLog _ entry a hentry hsuccess hhash haddr
  have hfilter := List.of_mem_filter hh
  rw [decide_eq_true_iff] at hfilter
  exact hfilter (by rwa [heq])

/-- C4, witness: after a successful batch paying address A, a resumed run
over the produced log keeps holder B pending while A is excluded. -/
theorem resume_excludes_successful_addresses_witness :
    (HolderInfo.mk "B" 2).address ≠ "A" :=
  resume_excludes_successful_addresses [[sampleRecipientA]]
    [Except.ok "tx1"] [⟨"A", 1⟩, ⟨"B", 2⟩]
    (batchEntry [sampleRecipientA] (Except.ok "tx1")) "A"
    (by decide) rfl (by decide) (HolderInfo.mk "B" 2) (by decide)

/-- Rejoining the chunks produced by the batching worker reconstructs the
original list, so the partition is consecutive and ordered. -/
lemma chunkedGo_join {α : Type} (batchSize : Nat) (hbs : batchSize ≠ 0) :
    ∀ (fuel : Nat) (l : List α), l.length ≤ fuel →
      (chunkedGo batchSize fuel l).flatten = l := by
  intro fuel
  induction fuel with
  | zero =>
    intro l hl
    have hnil : l = [] := List.length_eq_zero.mp (Nat.le_zero.mp hl)
    subst hnil
    simp [chunkedGo]
  | succ fuel ih =>
    intro l hl
    cases l with
    | nil => simp [chunkedGo]
    | cons a rest =>
      rw [chunkedGo, List.flatten_cons]
      simp only [List.length_cons] at hl
      rw [ih _ (by simp only [List.length_drop, List.length_cons]; omega)]
      exact List.take_append_drop batchSize (a :: rest)

/-- Every chunk produced by the batching worker has at most `batchSize`
elements. -/
lemma chunkedGo_length_le {α : Type} (batchSize : Nat) :
    ∀ (fuel : Nat) (l : List α) (b : List α),
      b ∈ chunkedGo batchSize fuel l → b.length ≤ batchSize := by
  intro fuel
  induction fuel with
  | zero =>
    intro l b hb
    cases l <;> simp [chunkedGo] at hb
  | succ fuel ih =>
    intro l b hb
    cases l with
    | nil => simp [chunkedGo] at hb
    | cons a rest =>
      rw [chunkedGo] at hb
      rcases List.mem_cons.mp hb with heq | hmem
      · subst heq
        exact List.length_take_le batchSize (a :: rest)
      · exact ih _ _ hmem

/-- `chunked` with a nonzero batch size partitions the list: joining the
chunks gives back the list. -/
lemma chunked_join {α : Type} (batchSize : Nat) (hbs : batchSize ≠ 0)
    (l : List α) : (chunked batchSize l).flatten = l := by
  unfold chunked
  rw [if_neg hbs]
  exact chunkedGo_join batchSize hbs l.length l le_rfl

/-- Every batch produced by `chunked` has at most `batchSize` elements. -/
lemma chunked_length_le {α : Type} (batchSize : Nat) (l : List α)
    (b : List α) (hb : b ∈ chunked batchSize l) : b.length ≤ batchSize := by
  unfold chunked at hb
  by_cases h : batchSize = 0
  · rw [if_pos h] at hb
    simp at hb
  · rw [if_neg h] at hb
    exact chunkedGo_length_le batchSize l.length l b hb

/-- C8: every holder's payout is `heldQuantity * ratePerUnit` (in lovelace,
with the CLI's ADA rate converted once to lovelace), a holder with 3 units
at a 10-ADA rate receives 30000000 lovelace, and the pending recipients are
partitioned into consecutive in-order batches of at most 50, with 120
recipients yielding exactly the batch sizes 50, 50, 20. -/
theorem payout_and_batch_partition (h : HolderInfo) (lovelacePerNft : Nat)
    (recipients : List Recipient) :
    (toRecipient lovelacePerNft h).amountLovelace =
      h.quantity * lovelacePerNft ∧
    (chunked airdropBatchSize recipients).flatten = recipients ∧
    (∀ b ∈ chunked airdropBatchSize recipients,
      b.length ≤ airdropBatchSize) ∧
    (toRecipient 10000000 { address := "H", quantity := 3 }).amountLovelace =
      30000000 ∧
    (chunked airdropBatchSize (List.range 120)).map List.length =
      [50, 50, 20] := by
  refine ⟨rfl, ?_, ?_, rfl, ?_⟩
  · exact chunked_join airdropBatchSize (by decide) recipients
  · intro b hb
    exact chunked_length_le airdropBatchSize recipients b hb
  · rfl

/-- C8, witness: the partition and payout facts at concrete inputs. -/
theorem payout_and_batch_partition_witness :
    (chunked airdropBatchSize [sampleRecipientA, sampleRecipientB]).flatten =
      [sampleRecipientA, sampleRecipientB] ∧
    (toRecipient 10000000 { address := "H", quantity := 3 }).amountLovelace =
      30000000 :=
  ⟨(payout_and_batch_partition ⟨"H", 3⟩ 10000000
      [sampleRecipientA, sampleRecipientB]).2.1,
   (payout_and_batch_partition ⟨"H", 3⟩ 10000000
      [sampleRecipientA, sampleRecipientB]).2.2.2.1⟩

/-- C7: the pre-flight check of the airdrop run — with a nonempty pending
set, a wallet balance below `Σ payout + batches * estimatedFee` makes the
run fail with the insufficient-balance error before any batch is sent (the
fatal outcome carries no transactions), and otherwise batch processing
begins and every batch is run. -/
theorem preflight_balance_guard (holders : List HolderInfo)
    (previousLog : List TransactionLog)
    (lovelacePerNft walletBalance : Nat)
    (attempts : List (Except String String))
    (hpending : airdropPending holders previousLog ≠ []) :
    (walletBalance < airdropRequiredBalance holders previousLog lovelacePerNft →
      airdropRun holders previousLog lovelacePerNft walletBalance attempts =
        .fatal "Insufficient balance") ∧
    (¬ walletBalance < airdropRequiredBalance holders previousLog lovelacePerNft →
      airdropRun holders previousLog lovelacePerNft walletBalance attempts =
        .completed
          (runBatches
            (chunked airdropBatchSize
              (airdropRecipients holders previousLog lovelacePerNft))
            attempts)
          (summarize
            (runBatches
              (chunked airdropBatchSize
                (airdropRecipients holders previousLog lovelacePerNft))
              attempts))) := by
  have h1 : ¬ (holders.isEmpty = true) := by
    intro hemp
    rw [List.isEmpty_iff] at hemp
    subst hemp
    exact hpending rfl
  have h2 : ¬ ((airdropPending holders previousLog).isEmpty = true) := by
    rw [List.isEmpty_iff]
    exact hpending
  constructor
  · intro hlt
    unfold airdropRun
    rw [if_neg h1, if_neg h2, if_pos hlt]
  · intro hge
    unfold airdropRun
    rw [if_neg h1, if_neg h2, if_neg hge]

/-- C7, witness: with one pending holder owed 10 ADA, a zero balance aborts
with the insufficient-balance error, while 20 ADA lets the batch phase run. -/
theorem preflight_balance_guard_witness :
    airdropRun [⟨"C", 1⟩] [] 10000000 0 [] =
      .fatal "Insufficient balance" ∧
    airdropRun [⟨"C", 1⟩] [] 10000000 20000000 [Except.ok "tx1"] =
      .completed
        (runBatches
          (chunked airdropBatchSize (airdropRecipients [⟨"C", 1⟩] [] 10000000))
          [Except.ok "tx1"])
        (summarize
          (runBatches
            (chunked airdropBatchSize
              (airdropRecipients [⟨"C", 1⟩] [] 10000000))
            [Except.ok "tx1"])) :=
  ⟨(preflight_balance_guard [⟨"C", 1⟩] [] 10000000 0 [] (by decide)).1
      (by decide),
   (preflight_balance_guard [⟨"C", 1⟩] [] 10000000 20000000 [Except.ok "tx1"]
      (by decide)).2 (by decide)⟩

/-- The failed counter of the accumulated summary equals the total number of
addresses in failed entries, for any starting summary. -/
lemma summarize_foldl_failed (transactions : List TransactionLog) :
    ∀ (s : RunSummary),
      (transactions.foldl
        (fun s tx =>
          match tx.status with
          | LogStatus.success =>
            { s with successful := s.successful + tx.addresses.length
                     totalSent := s.totalSent + tx.amounts.sum }
          | LogStatus.failed =>
            { s with failed := s.failed + tx.addresses.length }) s).failed =
      s.failed +
        ((transactions.filter
            (fun tx => decide (tx.status = LogStatus.failed))).map
          (fun tx => tx.addresses.length)).sum := by
  induction transactions with
  | nil =>
    intro s
    simp
  | cons t ts ih =>
    intro s
    rw [List.foldl_cons, ih]
    cases ht : t.status
    all_goals simp [List.filter_cons, ht]
    all_goals omega

/-- `summarize` reports as failed exactly the address count of the failed
entries. -/
lemma summarize_failed_eq (transactions : List TransactionLog) :
    (summarize transactions).failed =
      ((transactions.filter
          (fun tx => decide (tx.status = LogStatus.failed))).map
        (fun tx => tx.addresses.length)).sum := by
  unfold summarize
  rw [summarize_foldl_failed]
  simp

/-- C10: a failed batch does not abort the run — `sendBatch` converts every
thrown error into a `txHash = null` result instead of propagating it, the
failure is appended as a `failed` entry carrying the error message, the log
as of batch `k` is a stable prefix of the final log (it is rewritten before
the next batch starts), every batch is attempted (one entry per batch), and
the summary reports the failed address count. -/
theorem failed_batch_does_not_abort (batches : List (List Recipient))
    (attempts : List (Except String String))
    (hlen : attempts.length = batches.length) :
    (∀ e, sendBatch (Except.error e) = { txHash := none, error := some e }) ∧
    (runBatches batches attempts).length = batches.length ∧
    (∀ batch e, batchEntry batch (Except.error e) =
      { txHash := none
        addresses := batch.map (fun r => r.address)
        amounts := batch.map (fun r => r.amountLovelace)
        status := LogStatus.failed
        error := some e }) ∧
    (∀ k, runBatches (batches.take k) (attempts.take k) =
      (runBatches batches attempts).take k) ∧
    (summarize (runBatches batches attempts)).failed =
      (((runBatches batches attempts).filter
          (fun tx => decide (tx.status = LogStatus.failed))).map
        (fun tx => tx.addresses.length)).sum := by
  refine ⟨fun e => rfl, ?_, fun batch e => rfl, ?_, ?_⟩
  · rw [runBatches, List.length_zipWith, hlen, Nat.min_self]
  · intro k
    rw [runBatches, runBatches, List.take_zipWith]
  · exact summarize_failed_eq _

/-- C10, witness: with a failing first batch and a succeeding second batch,
both batches are attempted and logged. -/
theorem failed_batch_does_not_abort_witness :
    (runBatches [[sampleRecipientA], [sampleRecipientB]]
      [Except.error "boom", Except.ok "tx2"]).length = 2 :=
  (failed_batch_does_not_abort [[sampleRecipientA], [sampleRecipientB]]
    [Except.error "boom", Except.ok "tx2"] rfl).2.1

end HarvestFlow
